import Mathlib

/-!
# Verification of the aws-es-proxy request pipeline

A shallow embedding of src/aws-es-proxy.go: a signing HTTP reverse proxy.
Bytes are modelled as Nat, Go strings as Lean String (or List Char where
Go code iterates over characters), wall-clock seconds as Rat (Go uses
float64 seconds; we keep exact arithmetic with the same ordering), and the
ambient world (the AWS credential fetch, the upstream HTTP call, the raw
request dump produced by httputil.DumpRequest) as explicit parameters.
-/

namespace AwsEsProxy

/-- An opaque AWS credential bundle (the aws-sdk credentials.Credentials
pointer); the proxy never inspects it, so a bare Nat identifier suffices. -/
abbrev Cred := Nat

/-- Go http.Header: a map from canonical header key to the ordered list of
values.  Embedded as an association list whose keys are unique for headers
produced by Go's map (see keysOf / Nodup hypotheses where that matters). -/
abbrev Headers := List (String × List String)

/-- All keys of a header map, in association-list order. -/
def keysOf (h : Headers) : List String := h.map Prod.fst

/-- Go http.Header lookup (map index): values of the first entry with the
given key, [] when absent. -/
def lookupH : Headers → String → List String
  | [], _ => []
  | (k', vs) :: t, k => if k' = k then vs else lookupH t k

/-- Go map index with ok-flag: Some values when the key is present. -/
def headerFind : Headers → String → Option (List String)
  | [], _ => none
  | (k', vs) :: t, k => if k' = k then some vs else headerFind t k

/-- http.Header.Add: append one value to the entry for key k (creating the
entry when absent).  Keys are assumed already canonical, as they are for
headers parsed by net/http, so no key canonicalization is modelled. -/
def addH : Headers → String → String → Headers
  | [], k, v => [(k, [v])]
  | (k', vs) :: t, k, v =>
    if k' = k then (k', vs ++ [v]) :: t else (k', vs) :: addH t k v

/-- Inner loop of copyHeaders: add every value of vs under key k. -/
def addAllH (h : Headers) (k : String) (vs : List String) : Headers :=
  vs.foldl (fun acc v => addH acc k v) h

/-- src/aws-es-proxy.go copyHeaders: for each (k, vals) in src, dst.Add(k, v)
for every v in vals. -/
def copyHeaders (dst src : Headers) : Headers :=
  src.foldl (fun acc kv => addAllH acc kv.1 kv.2) dst

/-- The result of draining an http request body stream: the bytes the reads
yielded, and the error (if any) that ended the stream.  ioutil.ReadAll on a
failing stream returns both the bytes read so far and the error. -/
structure BodyStream where
  bytes : List Nat
  readErr : Option String
deriving DecidableEq, Repr

/-- The parts of net/url.URL that the proxy touches. -/
structure URLm where
  scheme : String
  host : String
  path : String
  query : String
deriving DecidableEq, Repr

/-- Go http.Request as the proxy sees it: method, URL, header map, and a
body stream (nil body = none). -/
structure Request where
  method : String
  url : URLm
  headers : Headers
  body : Option BodyStream
deriving DecidableEq, Repr

/-- The proxy struct of src/aws-es-proxy.go. -/
structure Proxy where
  Scheme : String
  Host : String
  Region : String
  Service : String
  Verbose : Bool
  Prettify : Bool
  Refresh : Rat
  CredentialsLastUpped : Rat
  Credentials : Option Cred
deriving DecidableEq, Repr

/-! ## Endpoint resolution (parseEndpoint) -/

/-- The anonymous scheme closure in parseEndpoint: http and https pass
through, everything else (the empty scheme included) becomes https. -/
def normScheme (x : String) : String :=
  if x = "http" ∨ x = "https" then x else "https"

/-- Go strings.Split(s, sep) for a one-character separator, over the
character list of the host string. -/
def splitOnChar (c : Char) : List Char → List (List Char)
  | [] => [[]]
  | x :: xs =>
    match splitOnChar c xs with
    | [] => [[]]
    | h :: t => if x = c then [] :: h :: t else (x :: h) :: t

/-- The proxy fields parseEndpoint fills in on success. -/
structure EndpointConfig where
  Scheme : String
  Host : String
  Region : List Char
  Service : List Char
deriving DecidableEq, Repr

/-- src/aws-es-proxy.go parseEndpoint, after url.Parse has produced the
link's scheme and host (url.Parse is external library code; the claims
quantify over the parsed authority).  log.Fatalf exits are embedded as
Except.error. -/
def parseEndpointCore (linkScheme linkHost : String) : Except String EndpointConfig :=
  let s := normScheme linkScheme
  if linkHost = "" then
    Except.error "ERROR: Empty host information in submitted endpoint"
  else
    let parts := splitOnChar '.' linkHost.data
    if h5 : parts.length = 5 then
      Except.ok { Scheme := s, Host := linkHost,
                  Region := parts.get ⟨1, by omega⟩,
                  Service := parts.get ⟨2, by omega⟩ }
    else
      Except.error "ERROR: Submitted endpoint is not a valid Amazon ElasticSearch Endpoint"

/-! ## Credential cache (getSigner) -/

/-- What getSigner hands back: the credentials the returned v4.Signer wraps,
the proxy state after the call, and how many ambient credential fetches
(calls of getCredentials) the call performed. -/
structure SignerResult where
  signerCreds : Option Cred
  proxyAfter : Proxy
  fetches : Nat
deriving DecidableEq, Repr

/-- src/aws-es-proxy.go getSigner.  now is time.Now() at entry; ambient is
the result of getCredentials() (fresh credentials and the time.Now() stamp
taken inside it), supplied as a parameter since it reads the environment. -/
def getSigner (p : Proxy) (now : Rat) (ambient : Cred × Rat) : SignerResult :=
  if p.Credentials = none ∨ now - p.CredentialsLastUpped > p.Refresh then
    { signerCreds := some ambient.1
      proxyAfter := { p with Credentials := some ambient.1, CredentialsLastUpped := ambient.2 }
      fetches := 1 }
  else
    { signerCreds := p.Credentials, proxyAfter := p, fetches := 0 }

/-! ## Body buffering (replaceBody) -/

/-- src/aws-es-proxy.go replaceBody: nil body yields the empty payload;
otherwise ReadAll drains the stream (its error is discarded by payload, _),
and the body is replaced by a clean reader over exactly the bytes read.
Returns (payload, request with replaced body). -/
def replaceBody (req : Request) : List Nat × Request :=
  match req.body with
  | none => ([], req)
  | some b => (b.bytes, { req with body := some { bytes := b.bytes, readErr := none } })

/-! ## Observability extractor (the logging tail of ServeHTTP) -/

/-- strings.Replace(rawQuery, newline, space, -1): a single-character
replacement is a map over the characters. -/
def flattenNL (l : List Char) : List Char :=
  l.map (fun c => if c = '\n' then ' ' else c)

/-- Index of the last closing brace of the list, if any (the end of the
greedy match of the dot-star inside the brace regex). -/
def lastCloseIdx : List Char → Option Nat
  | [] => none
  | x :: xs =>
    match lastCloseIdx xs with
    | some i => some (i + 1)
    | none => if x = '\x7d' then some 0 else none

/-- regexp.FindString with pattern open-brace dot-star close-brace (greedy,
leftmost match): scan for the first opening brace that still has a closing
brace somewhere after it, and return the span from it through the last
closing brace; empty when there is no match. -/
def braceMatch : List Char → List Char
  | [] => []
  | x :: xs =>
    if x = '\x7b' then
      match lastCloseIdx xs with
      | some i => x :: xs.take (i + 1)
      | none => braceMatch xs
    else braceMatch xs

/-- Does the list start with the pattern? -/
def startsWithL : List Char → List Char → Bool
  | [], _ => true
  | _ :: _, [] => false
  | p :: ps, y :: ys => p = y && startsWithL ps ys

/-- Does the pattern occur as a contiguous run anywhere in the list? -/
def containsSeq (pat : List Char) : List Char → Bool
  | [] => startsWithL pat []
  | x :: t => startsWithL pat (x :: t) || containsSeq pat t

/-- Nonempty result of regexp.FindString for the pattern
underscore-msearch-or-underscore-bulk: a plain substring test. -/
def hasMarker (l : List Char) : Bool :=
  containsSeq "_msearch".data l || containsSeq "_bulk".data l

/-- The query-summary computation at the end of ServeHTTP: newlines of the
raw request dump are replaced by spaces; if the bulk or msearch marker
matches, the query is empty, otherwise it is the brace-regex match. -/
def extractQuery (dump : List Char) : List Char :=
  let raw := flattenNL dump
  if hasMarker raw then [] else braceMatch raw

/-! ## The request pipeline (ServeHTTP) -/

/-- The Kbn-Version workaround in ServeHTTP: outbound headers start empty
(http.NewRequest builds a fresh header map) and only when the inbound map
has a Kbn-Version entry is its first value set on the outbound request. -/
def kbnFixup (h : Headers) : Headers :=
  match headerFind h "Kbn-Version" with
  | some (v :: _) => [("Kbn-Version", [v])]
  | _ => []

/-- Lines 119-132 of ServeHTTP: endpoint := *r.URL with host and scheme
overwritten from the proxy, req := http.NewRequest(r.Method,
endpoint.String(), r.Body) (fresh empty header map, inbound body stream),
then the Kbn-Version fix-up. -/
def buildOutbound (p : Proxy) (r : Request) : Request :=
  { method := r.method
    url := { scheme := p.Scheme, host := p.Host, path := r.url.path, query := r.url.query }
    headers := kbnFixup r.headers
    body := r.body }

/-- What http.DefaultClient.Do returned: status, header map, and the body
stream; copyErr models an io.Copy failure while draining that stream. -/
structure UpstreamResp where
  status : Nat
  headers : Headers
  body : List Nat
  copyErr : Option String
deriving DecidableEq, Repr

/-- How one ServeHTTP call ends, as seen by the caller and the process:
respondError writes status 400 with the error text; success relays the
upstream status, copied headers and body; log.Fatal terminates the whole
process. -/
inductive ServeOutcome where
  | clientError (status : Nat) (body : String)
  | success (status : Nat) (headers : Headers) (body : List Nat)
  | fatalExit (msg : String)
deriving DecidableEq, Repr

/-- The bytes the HTTP client transmits as the request body: none sends
nothing, a buffered body sends its bytes. -/
def sentBytes (r : Request) : List Nat :=
  match r.body with
  | none => []
  | some b => b.bytes

/-- The observable trace of one ServeHTTP call. -/
structure ServeResult where
  outbound : Request
  signedPayload : List Nat
  signedRequest : Request
  sentBody : List Nat
  fetches : Nat
  outcome : ServeOutcome
  loggedQuery : List Char
  proxyAfter : Proxy
deriving DecidableEq, Repr

/-- src/aws-es-proxy.go ServeHTTP.  External effects are parameters: dump is
what httputil.DumpRequest produced, now/ambient feed getSigner, signAdds is
the header set signer.Sign attaches (the v4 signer only adds signature
headers; it is library code), and upstream is the outcome of
http.DefaultClient.Do.  The outbound request is built, signed over the
re-buffered body, sent, and the response relayed; the logged query summary
is computed from the dump. -/
def serveHTTP (p : Proxy) (r : Request) (dump : List Char) (now : Rat)
    (ambient : Cred × Rat) (signAdds : Headers)
    (upstream : Except String UpstreamResp) : ServeResult :=
  let outbound := buildOutbound p r
  let sres := getSigner p now ambient
  let pr := replaceBody outbound
  let signedReq : Request := { pr.2 with headers := pr.2.headers ++ signAdds }
  let outcome : ServeOutcome :=
    match upstream with
    | Except.error e => ServeOutcome.clientError 400 e
    | Except.ok resp =>
      match resp.copyErr with
      | some e => ServeOutcome.fatalExit e
      | none => ServeOutcome.success resp.status (copyHeaders [] resp.headers) resp.body
  { outbound := outbound
    signedPayload := pr.1
    signedRequest := signedReq
    sentBody := sentBytes signedReq
    fetches := sres.fetches
    outcome := outcome
    loggedQuery := extractQuery dump
    proxyAfter := sres.proxyAfter }

/-! ## Header-map lemmas -/

theorem lookupH_addH_self (h : Headers) (k v : String) :
    lookupH (addH h k v) k = lookupH h k ++ [v] := by
  induction h with
  | nil => simp [addH, lookupH]
  | cons kv t ih =>
    obtain ⟨k₀, vs⟩ := kv
    by_cases hk : k₀ = k
    · simp [addH, lookupH, hk]
    · simp [addH, lookupH, hk, ih]

theorem lookupH_addH_ne (h : Headers) {k q : String} (v : String) (hq : q ≠ k) :
    lookupH (addH h k v) q = lookupH h q := by
  induction h with
  | nil => simp [addH, lookupH, Ne.symm hq]
  | cons kv t ih =>
    obtain ⟨k₀, vs⟩ := kv
    by_cases hk : k₀ = k
    · subst hk
      simp [addH, lookupH, Ne.symm hq]
    · by_cases hq₀ : k₀ = q
      · simp [addH, lookupH, hk, hq₀, hq]
      · simp [addH, lookupH, hk, hq₀, ih]

theorem lookupH_addAllH_self (vs : List String) (h : Headers) (k : String) :
    lookupH (addAllH h k vs) k = lookupH h k ++ vs := by
  induction vs generalizing h with
  | nil => simp [addAllH]
  | cons v vs ih =>
    have step : addAllH h k (v :: vs) = addAllH (addH h k v) k vs := rfl
    rw [step, ih, lookupH_addH_self]
    simp

theorem lookupH_addAllH_ne (vs : List String) (h : Headers) {k q : String} (hq : q ≠ k) :
    lookupH (addAllH h k vs) q = lookupH h q := by
  induction vs generalizing h with
  | nil => simp [addAllH]
  | cons v vs ih =>
    have step : addAllH h k (v :: vs) = addAllH (addH h k v) k vs := rfl
    rw [step, ih, lookupH_addH_ne h v hq]

theorem lookupH_eq_nil (h : Headers) (k : String) (hk : k ∉ keysOf h) :
    lookupH h k = [] := by
  induction h with
  | nil => rfl
  | cons kv t ih =>
    obtain ⟨k₀, vs⟩ := kv
    rw [show keysOf ((k₀, vs) :: t) = k₀ :: keysOf t from rfl, List.mem_cons] at hk
    push_neg at hk
    simp [lookupH, Ne.symm hk.1, ih hk.2]

theorem lookupH_copyHeaders (src : Headers) :
    ∀ dst : Headers, (keysOf src).Nodup →
      ∀ q, lookupH (copyHeaders dst src) q = lookupH dst q ++ lookupH src q := by
  induction src with
  | nil =>
    intro dst _ q
    simp [copyHeaders, lookupH]
  | cons kv t ih =>
    intro dst hnd q
    obtain ⟨k, vs⟩ := kv
    simp only [keysOf, List.map_cons, List.nodup_cons] at hnd
    have hk : k ∉ keysOf t := by simpa [keysOf] using hnd.1
    have hnd' : (keysOf t).Nodup := by simpa [keysOf] using hnd.2
    have step : copyHeaders dst ((k, vs) :: t) = copyHeaders (addAllH dst k vs) t := rfl
    rw [step, ih (addAllH dst k vs) hnd' q]
    by_cases hq : q = k
    · subst hq
      rw [lookupH_addAllH_self, lookupH_eq_nil t q hk]
      simp [lookupH]
    · rw [lookupH_addAllH_ne vs dst hq]
      simp [lookupH, Ne.symm hq]

/-! ## Brace-regex lemmas -/

theorem lastCloseIdx_eq_none (l : List Char) (h : '\x7d' ∉ l) :
    lastCloseIdx l = none := by
  induction l with
  | nil => rfl
  | cons x xs ih =>
    simp at h
    simp [lastCloseIdx, ih h.2, Ne.symm h.1]

theorem lastCloseIdx_append (mid post : List Char) (h : '\x7d' ∉ post) :
    lastCloseIdx (mid ++ '\x7d' :: post) = some mid.length := by
  induction mid with
  | nil => simp [lastCloseIdx, lastCloseIdx_eq_none post h]
  | cons x xs ih => simp [lastCloseIdx, ih]

theorem braceMatch_append_no_open (pre l : List Char) (h : '\x7b' ∉ pre) :
    braceMatch (pre ++ l) = braceMatch l := by
  induction pre with
  | nil => rfl
  | cons x xs ih =>
    simp at h
    simp [braceMatch, Ne.symm h.1, ih h.2]

theorem take_len_append (mid : List Char) (y : Char) (post : List Char) :
    (mid ++ y :: post).take (mid.length + 1) = mid ++ [y] := by
  induction mid with
  | nil => simp
  | cons x xs ih => simp [List.take, ih]

/-! ## Concrete fixtures used by the witness theorems -/

/-- A proxy configured for a five-label endpoint, credentials cached at
time 0 with the default 120 second refresh interval. -/
def pT : Proxy where
  Scheme := "https"
  Host := "test-cluster.eu-west-1.es.amazonaws.com"
  Region := "eu-west-1"
  Service := "es"
  Verbose := true
  Prettify := false
  Refresh := 120
  CredentialsLastUpped := 0
  Credentials := some 7

/-- A concrete inbound request with a non-empty body and two headers. -/
def rT : Request where
  method := "POST"
  url := { scheme := "http", host := "localhost:9200", path := "/idx/_search", query := "q=1" }
  headers := [("Content-Type", ["application/json"]), ("Kbn-Version", ["5.1.1"])]
  body := some { bytes := [1, 2, 3], readErr := none }

/-- An inbound request whose body stream fails part-way through. -/
def rErr : Request where
  method := "PUT"
  url := { scheme := "http", host := "localhost:9200", path := "/idx/doc/1", query := "" }
  headers := []
  body := some { bytes := [4, 5], readErr := some "unexpected EOF" }

/-- A successful upstream response with a multi-valued header. -/
def respOk : UpstreamResp where
  status := 200
  headers := [("Content-Type", ["application/json"]), ("X-Multi", ["a", "b"])]
  body := [10, 20]
  copyErr := none

/-- An upstream response whose body copy fails. -/
def respBad : UpstreamResp where
  status := 200
  headers := [("Content-Type", ["application/json"])]
  body := []
  copyErr := some "read: connection reset by peer"

/-! ## The claims -/

/-- C1: for every inbound request with a non-empty body, the payload handed
to the signer, the bytes transmitted upstream as the outbound body, and the
inbound body bytes are byte-identical; signing does not mutate the payload. -/
theorem c1_payload_roundtrip (p : Proxy) (r : Request) (dump : List Char)
    (now : Rat) (ambient : Cred × Rat) (signAdds : Headers)
    (upstream : Except String UpstreamResp) (b : BodyStream)
    (hb : r.body = some b) (hne : b.bytes ≠ []) :
    (serveHTTP p r dump now ambient signAdds upstream).signedPayload = b.bytes ∧
    (serveHTTP p r dump now ambient signAdds upstream).sentBody = b.bytes := by
  simp [serveHTTP, buildOutbound, replaceBody, sentBytes, hb]

theorem c1_payload_roundtrip_witness :
    (rT.body = some { bytes := [1, 2, 3], readErr := none } ∧
      ([1, 2, 3] : List Nat) ≠ []) ∧
    ((serveHTTP pT rT [] 50 (9, 51) [("Authorization", ["sig"])]
        (Except.error "refused")).signedPayload = [1, 2, 3] ∧
      (serveHTTP pT rT [] 50 (9, 51) [("Authorization", ["sig"])]
        (Except.error "refused")).sentBody = [1, 2, 3]) :=
  ⟨⟨rfl, by decide⟩,
    c1_payload_roundtrip pT rT [] 50 (9, 51) [("Authorization", ["sig"])]
      (Except.error "refused") { bytes := [1, 2, 3], readErr := none } rfl (by decide)⟩

/-- C2, as stated, is false: the outbound request is built with a fresh
empty header map (http.NewRequest) and only the Kbn-Version workaround
copies a single inbound header, so the outbound header set is not
identically keyed with the inbound one.  Here the inbound Content-Type key
is absent from the signed outbound request even though the signing
additions do not contain it. -/
theorem c2_headers_counterexample :
    "Content-Type" ∈ keysOf rT.headers ∧
    "Content-Type" ∉ keysOf (serveHTTP pT rT [] 50 (9, 51)
        [("Authorization", ["sig"]), ("X-Amz-Date", ["20200101T000000Z"])]
        (Except.error "refused")).signedRequest.headers := by
  constructor
  · decide
  · decide

/-- C2 (amended): the outbound request keeps the inbound method and
path+query, its scheme and authority are replaced by the configured target,
and its header set before signing consists solely of the Kbn-Version
fix-up (the first inbound Kbn-Version value, when present); the signing
additions are then appended.  Inbound headers are not otherwise forwarded. -/
theorem c2_outbound_construction (p : Proxy) (r : Request) (dump : List Char)
    (now : Rat) (ambient : Cred × Rat) (signAdds : Headers)
    (upstream : Except String UpstreamResp) :
    (serveHTTP p r dump now ambient signAdds upstream).outbound.method = r.method ∧
    (serveHTTP p r dump now ambient signAdds upstream).outbound.url.path = r.url.path ∧
    (serveHTTP p r dump now ambient signAdds upstream).outbound.url.query = r.url.query ∧
    (serveHTTP p r dump now ambient signAdds upstream).outbound.url.scheme = p.Scheme ∧
    (serveHTTP p r dump now ambient signAdds upstream).outbound.url.host = p.Host ∧
    (serveHTTP p r dump now ambient signAdds upstream).outbound.headers = kbnFixup r.headers ∧
    (serveHTTP p r dump now ambient signAdds upstream).signedRequest.method = r.method ∧
    (serveHTTP p r dump now ambient signAdds upstream).signedRequest.headers
      = kbnFixup r.headers ++ signAdds := by
  cases hr : r.body with
  | none => simp [serveHTTP, buildOutbound, replaceBody, hr]
  | some b => simp [serveHTTP, buildOutbound, replaceBody, hr]

/-- C3: an authority of exactly five dot-separated labels resolves with
region = label 1 and service = label 2; any other label count makes
endpoint resolution fail fatally (log.Fatal, before any request is
served). -/
theorem c3_endpoint_labels (scheme host : String) :
    (∀ h5 : (splitOnChar '.' host.data).length = 5,
      parseEndpointCore scheme host =
        Except.ok { Scheme := normScheme scheme, Host := host,
                    Region := (splitOnChar '.' host.data).get ⟨1, by omega⟩,
                    Service := (splitOnChar '.' host.data).get ⟨2, by omega⟩ }) ∧
    ((splitOnChar '.' host.data).length ≠ 5 →
      ∃ msg, parseEndpointCore scheme host = Except.error msg) := by
  constructor
  · intro h5
    have hne : ¬ host = "" := by
      intro he
      rw [he] at h5
      simp [splitOnChar] at h5
    unfold parseEndpointCore
    rw [if_neg hne]
    simp only [dif_pos h5]
  · intro h5
    unfold parseEndpointCore
    by_cases hh : host = ""
    · rw [if_pos hh]
      exact ⟨_, rfl⟩
    · rw [if_neg hh]
      simp only [dif_neg h5]
      exact ⟨_, rfl⟩

theorem c3_endpoint_labels_witness :
    (splitOnChar '.' ("test-cluster.eu-west-1.es.amazonaws.com" : String).data).length = 5 ∧
    parseEndpointCore "https" "test-cluster.eu-west-1.es.amazonaws.com" =
      Except.ok { Scheme := "https", Host := "test-cluster.eu-west-1.es.amazonaws.com",
                  Region := "eu-west-1".data, Service := "es".data } :=
  ⟨by decide,
    ((c3_endpoint_labels "https" "test-cluster.eu-west-1.es.amazonaws.com").1
      (by decide)).trans rfl⟩

/-- C4: when credentials are cached and now minus the last refresh time is
within the refresh interval, getSigner performs no ambient fetch and leaves
the state untouched; when nothing is cached or the interval is exceeded,
exactly one fetch occurs, the fetch timestamp is recorded, and the returned
signer wraps the freshly fetched credentials. -/
theorem c4_credential_cache (p : Proxy) (now : Rat) (ambient : Cred × Rat) :
    (∀ c, p.Credentials = some c → now - p.CredentialsLastUpped ≤ p.Refresh →
      getSigner p now ambient =
        { signerCreds := some c, proxyAfter := p, fetches := 0 }) ∧
    ((p.Credentials = none ∨ now - p.CredentialsLastUpped > p.Refresh) →
      (getSigner p now ambient).fetches = 1 ∧
      (getSigner p now ambient).proxyAfter.Credentials = some ambient.1 ∧
      (getSigner p now ambient).proxyAfter.CredentialsLastUpped = ambient.2 ∧
      (getSigner p now ambient).signerCreds = some ambient.1) := by
  constructor
  · intro c hc hle
    unfold getSigner
    rw [if_neg]
    · rw [hc]
    · rintro (hnil | hgt)
      · rw [hc] at hnil
        exact Option.noConfusion hnil
      · exact absurd hle (not_le.mpr hgt)
  · intro hcond
    unfold getSigner
    rw [if_pos hcond]
    exact ⟨rfl, rfl, rfl, rfl⟩

theorem c4_credential_cache_witness :
    (pT.Credentials = some 7 ∧ (50 : Rat) - pT.CredentialsLastUpped ≤ pT.Refresh ∧
      getSigner pT 50 (9, 51) =
        { signerCreds := some 7, proxyAfter := pT, fetches := 0 }) ∧
    (((200 : Rat) - pT.CredentialsLastUpped > pT.Refresh) ∧
      (getSigner pT 200 (9, 201)).fetches = 1 ∧
      (getSigner pT 200 (9, 201)).proxyAfter.Credentials = some 9 ∧
      (getSigner pT 200 (9, 201)).proxyAfter.CredentialsLastUpped = 201 ∧
      (getSigner pT 200 (9, 201)).signerCreds = some 9) :=
  ⟨⟨rfl, by norm_num [pT],
      (c4_credential_cache pT 50 (9, 51)).1 7 rfl (by norm_num [pT])⟩,
    ⟨by norm_num [pT],
      (c4_credential_cache pT 200 (9, 201)).2 (Or.inr (by norm_num [pT]))⟩⟩

/-- C5: when the outbound call fails at the transport layer, the caller
receives HTTP 400 with the transport error text as the body, and the
process does not terminate (it keeps serving other requests). -/
theorem c5_transport_error_400 (p : Proxy) (r : Request) (dump : List Char)
    (now : Rat) (ambient : Cred × Rat) (signAdds : Headers) (e : String) :
    (serveHTTP p r dump now ambient signAdds (Except.error e)).outcome
      = ServeOutcome.clientError 400 e ∧
    ∀ m, (serveHTTP p r dump now ambient signAdds (Except.error e)).outcome
      ≠ ServeOutcome.fatalExit m := by
  constructor
  · rfl
  · intro m h
    exact ServeOutcome.noConfusion h

/-- C6: on a successful upstream response every header key/value pair is
copied verbatim to the caller (multi-valued headers preserved), and the
upstream status code and full body bytes are relayed unchanged. -/
theorem c6_success_relay (p : Proxy) (r : Request) (dump : List Char)
    (now : Rat) (ambient : Cred × Rat) (signAdds : Headers) (resp : UpstreamResp)
    (hnd : (keysOf resp.headers).Nodup) (hcopy : resp.copyErr = none) :
    (serveHTTP p r dump now ambient signAdds (Except.ok resp)).outcome
      = ServeOutcome.success resp.status (copyHeaders [] resp.headers) resp.body ∧
    ∀ q, lookupH (copyHeaders [] resp.headers) q = lookupH resp.headers q := by
  constructor
  · simp [serveHTTP, hcopy]
  · intro q
    have h := lookupH_copyHeaders resp.headers [] hnd q
    simpa [lookupH] using h

theorem c6_success_relay_witness :
    ((keysOf respOk.headers).Nodup ∧ respOk.copyErr = none) ∧
    ((serveHTTP pT rT [] 50 (9, 51) [("Authorization", ["sig"])]
        (Except.ok respOk)).outcome
      = ServeOutcome.success 200 (copyHeaders [] respOk.headers) [10, 20] ∧
      ∀ q, lookupH (copyHeaders [] respOk.headers) q = lookupH respOk.headers q) :=
  ⟨⟨by decide, rfl⟩,
    c6_success_relay pT rT [] 50 (9, 51) [("Authorization", ["sig"])] respOk
      (by decide) rfl⟩

/-- C7, as stated, is false: when the flattened dump holds two separate
brace spans and no bulk/msearch marker, the greedy regex matches from the
first opening brace to the LAST closing brace, not just the first
brace-delimited span. -/
theorem c7_first_span_counterexample :
    hasMarker (flattenNL ("\x7ba\x7d \x7bb\x7d").data) = false ∧
    extractQuery ("\x7ba\x7d \x7bb\x7d").data = ("\x7ba\x7d \x7bb\x7d").data ∧
    extractQuery ("\x7ba\x7d \x7bb\x7d").data ≠ ("\x7ba\x7d").data :=
  ⟨by decide, by decide, by decide⟩

/-- C7 (amended): if the dump contains a bulk or multi-search marker the
logged query is empty regardless of brace content; otherwise it is the
greedy brace match on the newline-flattened dump: the span running from
the first opening brace (here: one preceded by no other opening brace)
through the last closing brace (one followed by no other closing brace). -/
theorem c7_query_extraction (dump : List Char) :
    (hasMarker (flattenNL dump) = true → extractQuery dump = []) ∧
    (hasMarker (flattenNL dump) = false →
      ∀ pre mid post, flattenNL dump = pre ++ '\x7b' :: (mid ++ '\x7d' :: post) →
        '\x7b' ∉ pre → '\x7d' ∉ post →
        extractQuery dump = '\x7b' :: (mid ++ ['\x7d'])) := by
  constructor
  · intro h
    simp [extractQuery, h]
  · intro h pre mid post hdec hpre hpost
    have he : extractQuery dump = braceMatch (flattenNL dump) := by
      simp [extractQuery, h]
    rw [he, hdec, braceMatch_append_no_open pre _ hpre]
    simp [braceMatch, lastCloseIdx_append mid post hpost, take_len_append]

theorem c7_query_extraction_witness :
    (hasMarker (flattenNL ("x \x7bq\x7d y").data) = false ∧
      flattenNL ("x \x7bq\x7d y").data
        = ("x ").data ++ '\x7b' :: (("q").data ++ '\x7d' :: (" y").data) ∧
      '\x7b' ∉ ("x ").data ∧ '\x7d' ∉ (" y").data) ∧
    extractQuery ("x \x7bq\x7d y").data = '\x7b' :: (("q").data ++ ['\x7d']) :=
  ⟨⟨by decide, by decide, by decide, by decide⟩,
    (c7_query_extraction ("x \x7bq\x7d y").data).2 (by decide)
      ("x ").data ("q").data (" y").data (by decide) (by decide) (by decide)⟩

/-- C8: an I/O error while copying the upstream response body is fatal to
the whole process (log.Fatal), not a per-request failure. -/
theorem c8_copy_error_fatal (p : Proxy) (r : Request) (dump : List Char)
    (now : Rat) (ambient : Cred × Rat) (signAdds : Headers)
    (resp : UpstreamResp) (e : String) (h : resp.copyErr = some e) :
    (serveHTTP p r dump now ambient signAdds (Except.ok resp)).outcome
      = ServeOutcome.fatalExit e := by
  simp [serveHTTP, h]

theorem c8_copy_error_fatal_witness :
    respBad.copyErr = some "read: connection reset by peer" ∧
    (serveHTTP pT rT [] 50 (9, 51) [("Authorization", ["sig"])]
        (Except.ok respBad)).outcome
      = ServeOutcome.fatalExit "read: connection reset by peer" :=
  ⟨rfl,
    c8_copy_error_fatal pT rT [] 50 (9, 51) [("Authorization", ["sig"])]
      respBad "read: connection reset by peer" rfl⟩

/-- C9: endpoint resolution keeps the scheme verbatim when it is exactly
http or https, normalizes every other scheme (the empty one included) to
https, and any successfully resolved configuration carries that normalized
scheme. -/
theorem c9_scheme_normalization (scheme host : String) :
    ((scheme = "http" ∨ scheme = "https") → normScheme scheme = scheme) ∧
    (scheme ≠ "http" → scheme ≠ "https" → normScheme scheme = "https") ∧
    (∀ cfg, parseEndpointCore scheme host = Except.ok cfg →
      cfg.Scheme = normScheme scheme) := by
  refine ⟨?_, ?_, ?_⟩
  · intro h
    unfold normScheme
    rw [if_pos h]
  · intro h1 h2
    unfold normScheme
    rw [if_neg]
    rintro (h | h)
    · exact h1 h
    · exact h2 h
  · intro cfg h
    unfold parseEndpointCore at h
    by_cases hh : host = ""
    · rw [if_pos hh] at h
      exact Except.noConfusion h
    · rw [if_neg hh] at h
      by_cases h5 : (splitOnChar '.' host.data).length = 5
      · rw [dif_pos h5] at h
        injection h with h2
        rw [← h2]
      · rw [dif_neg h5] at h
        exact Except.noConfusion h

theorem c9_scheme_normalization_witness :
    (("ftp" : String) ≠ "http" ∧ ("ftp" : String) ≠ "https") ∧
    normScheme "ftp" = "https" :=
  ⟨⟨by decide, by decide⟩,
    (c9_scheme_normalization "ftp" "a.b.c.d.e").2.1 (by decide) (by decide)⟩

/-- C10: body buffering is total and never yields a request-scoped error:
a nil inbound body signs the empty payload, and a body-read error is
silently discarded, so signing and forwarding proceed with exactly the
bytes that were read, the downstream outcome being the same as for a clean
body with those bytes. -/
theorem c10_body_buffering_total (p : Proxy) (r : Request) (dump : List Char)
    (now : Rat) (ambient : Cred × Rat) (signAdds : Headers)
    (upstream : Except String UpstreamResp) :
    (r.body = none →
      (serveHTTP p r dump now ambient signAdds upstream).signedPayload = [] ∧
      (serveHTTP p r dump now ambient signAdds upstream).sentBody = []) ∧
    (∀ bs e, r.body = some { bytes := bs, readErr := some e } →
      (serveHTTP p r dump now ambient signAdds upstream).signedPayload = bs ∧
      (serveHTTP p r dump now ambient signAdds upstream).sentBody = bs ∧
      (serveHTTP p r dump now ambient signAdds upstream).outcome =
        (serveHTTP p { r with body := some { bytes := bs, readErr := none } }
          dump now ambient signAdds upstream).outcome ∧
      (serveHTTP p r dump now ambient signAdds upstream).signedRequest =
        (serveHTTP p { r with body := some { bytes := bs, readErr := none } }
          dump now ambient signAdds upstream).signedRequest) := by
  constructor
  · intro h
    simp [serveHTTP, buildOutbound, replaceBody, sentBytes, h]
  · intro bs e h
    simp [serveHTTP, buildOutbound, replaceBody, sentBytes, h]

theorem c10_body_buffering_total_witness :
    rErr.body = some { bytes := [4, 5], readErr := some "unexpected EOF" } ∧
    ((serveHTTP pT rErr [] 50 (9, 51) [] (Except.error "refused")).signedPayload
        = [4, 5] ∧
      (serveHTTP pT rErr [] 50 (9, 51) [] (Except.error "refused")).sentBody = [4, 5] ∧
      (serveHTTP pT rErr [] 50 (9, 51) [] (Except.error "refused")).outcome =
        (serveHTTP pT { rErr with body := some { bytes := [4, 5], readErr := none } }
          [] 50 (9, 51) [] (Except.error "refused")).outcome ∧
      (serveHTTP pT rErr [] 50 (9, 51) [] (Except.error "refused")).signedRequest =
        (serveHTTP pT { rErr with body := some { bytes := [4, 5], readErr := none } }
          [] 50 (9, 51) [] (Except.error "refused")).signedRequest) :=
  ⟨rfl,
    (c10_body_buffering_total pT rErr [] 50 (9, 51) [] (Except.error "refused")).2
      [4, 5] "unexpected EOF" rfl⟩

end AwsEsProxy
